import Mathlib

/-!
Shallow embedding of the authentication / entitlement / device-binding engine
of the `7xn` repository (a Node/Express + Mongoose authentication server).

Embedded source locations:
* `User` schema and its instance methods (`isPackageValid`, `isAdmin`,
  `comparePassword`, `getDaysUntilExpiry`): middleware/auth.js part of the
  repository (mongoose user model).
* Desktop API routes `POST /auth/api/login`, `POST /auth/api/verify-token`,
  `POST /auth/api/logout` and browser `POST /auth/login`: the auth router.
* Admin routes `POST /admin/users/bulk-action`, `POST /admin/users/delete/:id`,
  `POST /admin/packages/delete/:id`: the admin router.
* `checkPackageValidity` session-revalidation middleware: middleware/auth.js.

Modelling conventions: timestamps are milliseconds since the epoch as `Int`
(JavaScript `Date` comparisons compare millisecond values); bcrypt comparison
is modelled as equality of the candidate with the stored secret; the random
hex token produced by `crypto.randomBytes` is passed in as an explicit fresh
string; MongoDB collections are lists of records with `_id` modelled as `Nat`;
the express-session per-request `req.session` object is an explicit `Session`
record, and the backing session store is an association list from session id
to `Session`.
-/

namespace SevenXN

/-- Account role: the mongoose schema enum is `["user", "admin"]`. -/
inductive Role
  | user
  | admin
deriving DecidableEq, Repr

/-- Package record (models/Package.js): name, credit allowance, concurrency
limit, activation flag, keyed by `_id` (modelled as `pid : Nat`). -/
structure Package where
  pid : Nat
  name : String
  emailCredits : Nat
  concurrencyLimit : Nat
  isActive : Bool
deriving DecidableEq, Repr

/-- User record (mongoose user schema). `package` holds an optional package
reference (`ObjectId` ref), `packageEndDate` is optional because the schema
makes it required only for non-admin roles, `registeredDeviceId` defaults to
`null`, and `password` stands for the stored (bcrypt-hashed) secret. -/
structure User where
  uid : Nat
  username : String
  email : String
  password : String
  role : Role
  package : Option Nat
  packageEndDate : Option Int
  isActive : Bool
  registeredDeviceId : Option String
  lastLogin : Option Int
deriving DecidableEq, Repr

/-- `userSchema.methods.comparePassword`: bcrypt.compare of the candidate
against the stored hash, modelled as string equality with the stored secret. -/
def User.comparePassword (u : User) (candidate : String) : Bool :=
  candidate == u.password

/-- `userSchema.methods.isAdmin`: `this.role === "admin"`. -/
def User.isAdmin (u : User) : Bool :=
  u.role == Role.admin

/-- `userSchema.methods.isPackageValid`:
`return this.isActive && this.packageEndDate > now`.  A missing
`packageEndDate` (possible for admin accounts) makes the JavaScript
comparison `undefined > now` evaluate to `false`. -/
def User.isPackageValid (u : User) (now : Int) : Bool :=
  u.isActive &&
    match u.packageEndDate with
    | some e => decide (now < e)
    | none => false

/-- `userSchema.methods.getDaysUntilExpiry`:
`Math.ceil((this.packageEndDate - now) / (1000 * 60 * 60 * 24))`.
With no `packageEndDate` the JavaScript expression is `NaN`, modelled as
`none`. -/
def User.getDaysUntilExpiry (u : User) (now : Int) : Option Int :=
  match u.packageEndDate with
  | some e => some ⌈((e : ℚ) - (now : ℚ)) / (1000 * 60 * 60 * 24)⌉
  | none => none

/-- MongoDB `User.findOne({ username })`. -/
def findByUsername (db : List User) (uname : String) : Option User :=
  db.find? (fun u => u.username == uname)

/-- MongoDB `User.findOne({ email })`. -/
def findByEmail (db : List User) (email : String) : Option User :=
  db.find? (fun u => u.email == email)

/-- MongoDB `User.findById(id)`. -/
def findById (db : List User) (i : Nat) : Option User :=
  db.find? (fun u => u.uid == i)

/-- MongoDB `Package.findById(id)`. -/
def findPackage (pkgs : List Package) (i : Nat) : Option Package :=
  pkgs.find? (fun p => p.pid == i)

/-- Persisting a mutated user document (`user.save()`): replace the record
with the matching `_id`. -/
def updateUser (db : List User) (u : User) : List User :=
  db.map (fun v => if v.uid == u.uid then u else v)

/-- `User.countDocuments({ role: "admin" })`. -/
def countAdmins (db : List User) : Nat :=
  (db.filter (fun u => u.role == Role.admin)).length

/-- Association-list removal, modelling the JavaScript `delete obj[key]`. -/
def removeKey {α β : Type} [BEq α] (l : List (α × β)) (k : α) : List (α × β) :=
  l.filter (fun p => !(p.1 == k))

/-- Association-list write, modelling the JavaScript `obj[key] = value`. -/
def insertKey {α β : Type} [BEq α] (l : List (α × β)) (k : α) (v : β) :
    List (α × β) :=
  (k, v) :: removeKey l k

/-- Value stored under `req.session.desktopTokens[token]` at issuance:
`{ userId, deviceId, createdAt }`. -/
structure TokenData where
  userId : Nat
  deviceId : String
  createdAt : Int
deriving DecidableEq, Repr

/-- The parts of the express-session `req.session` object the desktop flow
uses: the `desktopTokens` token table and the `activeDevices` table.  An
absent table behaves like an empty one (JavaScript `undefined` property,
initialised on demand), so both are modelled as possibly-empty lists. -/
structure Session where
  desktopTokens : List (String × TokenData)
  activeDevices : List (Nat × String)
deriving DecidableEq, Repr

/-- A brand-new (or absent) session: no tokens, no device associations. -/
def Session.empty : Session := ⟨[], []⟩

/-- Package summary serialized inside API responses. -/
structure PackageSummary where
  id : Nat
  name : String
  emailCredits : Nat
  concurrencyLimit : Nat
deriving DecidableEq, Repr

/-- The `user` object serialized by `/auth/api/login` and
`/auth/api/verify-token`. -/
structure UserSummary where
  id : Nat
  username : String
  email : String
  role : Role
  isActive : Bool
  package : Option PackageSummary
  packageEndDate : Option Int
deriving DecidableEq, Repr

/-- Serialization of a (populated) user into the API response `user` field. -/
def mkUserSummary (pkgs : List Package) (u : User) : UserSummary :=
  { id := u.uid
    username := u.username
    email := u.email
    role := u.role
    isActive := u.isActive
    package :=
      match u.package with
      | some pid =>
        match findPackage pkgs pid with
        | some p => some ⟨p.pid, p.name, p.emailCredits, p.concurrencyLimit⟩
        | none => none
      | none => none
    packageEndDate := u.packageEndDate }

/-- Outcome of `POST /auth/api/login`.  The router returns 400 for failed
input validation, 401 with the literal body "Invalid username or password"
for both the unknown-username and the wrong-password branches, 403 for the
deactivated / expired / device-mismatch branches, and on success the token
plus the serialized user. -/
inductive ApiLoginResult
  | validationFailed
  | invalidCredentials
  | deactivated
  | packageExpired
  | deviceMismatch
  | success (token : String) (user : UserSummary)
deriving DecidableEq, Repr

/-- HTTP status the desktop-login route attaches to each outcome. -/
def ApiLoginResult.status : ApiLoginResult → Nat
  | .validationFailed => 400
  | .invalidCredentials => 401
  | .deactivated => 403
  | .packageExpired => 403
  | .deviceMismatch => 403
  | .success _ _ => 200

/-- Response message of the desktop-login route.  The unknown-username and
wrong-password return sites in the source carry the identical literal body,
which is why they map to the single constructor `invalidCredentials`. -/
def ApiLoginResult.message : ApiLoginResult → String
  | .validationFailed => "Validation failed"
  | .invalidCredentials => "Invalid username or password"
  | .deactivated => "Your account has been deactivated. Please contact support."
  | .packageExpired =>
      "Your package has expired. Please contact support to renew your subscription."
  | .deviceMismatch =>
      "This account is registered to a different device. Please use your registered device or contact support to reset your device."
  | .success _ _ => "Login successful"

/-- Shared tail of the desktop login handler once all checks passed:
`user.lastLogin = new Date(); await user.save();` then the fresh token is
recorded under `req.session.desktopTokens[token]` and the response is built
from the (already device-updated) user document. -/
def apiLoginCommit (pkgs : List Package) (db : List User) (sess : Session)
    (user : User) (device_id freshToken : String) (now : Int) :
    ApiLoginResult × List User × Session :=
  let user2 := { user with lastLogin := some now }
  let db2 := updateUser db user2
  let sess2 :=
    { sess with
      desktopTokens :=
        insertKey sess.desktopTokens freshToken ⟨user.uid, device_id, now⟩ }
  (.success freshToken (mkUserSummary pkgs user2), db2, sess2)

/-- `POST /auth/api/login` (desktop login).  Mirrors the handler's order:
express-validator non-empty checks, `User.findOne({ username })`, the
`isActive` check, the package-validity check for non-admins, the bcrypt
password comparison, then the `registeredDeviceId` bind-or-verify step, and
finally the commit (last-login stamp, token issuance into
`req.session.desktopTokens`).  `freshToken` stands for the random hex string
from `crypto.randomBytes(32)`. -/
def apiLogin (pkgs : List Package) (db : List User) (sess : Session)
    (username password device_id freshToken : String) (now : Int) :
    ApiLoginResult × List User × Session :=
  if username == "" || password == "" || device_id == "" then
    (.validationFailed, db, sess)
  else
    match findByUsername db username with
    | none => (.invalidCredentials, db, sess)
    | some user =>
      if !user.isActive then (.deactivated, db, sess)
      else if !user.isAdmin && !user.isPackageValid now then
        (.packageExpired, db, sess)
      else if !user.comparePassword password then
        (.invalidCredentials, db, sess)
      else
        match user.registeredDeviceId with
        | some d =>
          if d ≠ device_id then (.deviceMismatch, db, sess)
          else apiLoginCommit pkgs db sess user device_id freshToken now
        | none =>
          let user1 := { user with registeredDeviceId := some device_id }
          apiLoginCommit pkgs (updateUser db user1) sess user1 device_id
            freshToken now

/-- Outcome of `POST /auth/api/verify-token`: 400 for a missing token, 401
for an unknown token / vanished user / device supersession (the branch that
also deletes the token), 403 for deactivated or expired accounts, and the
serialized user on success. -/
inductive VerifyResult
  | missingToken
  | invalidToken
  | userNotFound
  | deactivated
  | packageExpired
  | deviceSuperseded
  | valid (user : UserSummary)
deriving DecidableEq, Repr

/-- HTTP status the verify-token route attaches to each outcome. -/
def VerifyResult.status : VerifyResult → Nat
  | .missingToken => 400
  | .invalidToken => 401
  | .userNotFound => 401
  | .deactivated => 403
  | .packageExpired => 403
  | .deviceSuperseded => 401
  | .valid _ => 200

/-- `POST /auth/api/verify-token`.  Mirrors the handler: falsy-token check,
lookup in `req.session.desktopTokens`, `User.findById`, the `isActive` and
package-validity checks, then the device check
`req.session.activeDevices[userId] !== tokenData.deviceId` (an absent entry
compares unequal to the recorded device id), whose failure deletes the token
from the session before answering 401. -/
def verifyToken (pkgs : List Package) (db : List User) (sess : Session)
    (token : String) (now : Int) : VerifyResult × Session :=
  if token == "" then (.missingToken, sess)
  else
    match List.lookup token sess.desktopTokens with
    | none => (.invalidToken, sess)
    | some td =>
      match findById db td.userId with
      | none => (.userNotFound, sess)
      | some user =>
        if !user.isActive then (.deactivated, sess)
        else if !user.isAdmin && !user.isPackageValid now then
          (.packageExpired, sess)
        else if List.lookup user.uid sess.activeDevices ≠ some td.deviceId then
          (.deviceSuperseded,
            { sess with desktopTokens := removeKey sess.desktopTokens token })
        else (.valid (mkUserSummary pkgs user), sess)

/-- Outcome of `POST /auth/api/logout`: 400 missing token, 401 unknown
token, success flag otherwise. -/
inductive LogoutResult
  | missingToken
  | unknownToken
  | success
deriving DecidableEq, Repr

/-- HTTP status the desktop-logout route attaches to each outcome. -/
def LogoutResult.status : LogoutResult → Nat
  | .missingToken => 400
  | .unknownToken => 401
  | .success => 200

/-- `POST /auth/api/logout`.  Mirrors the handler: falsy-token check, lookup
in `req.session.desktopTokens`; if present, delete the owning user's
`activeDevices` entry and the token itself and answer success, otherwise
401.  The handler performs no write to the user collection, so the user list
is passed through untouched. -/
def apiLogout (db : List User) (sess : Session) (token : String) :
    LogoutResult × List User × Session :=
  if token == "" then (.missingToken, db, sess)
  else
    match List.lookup token sess.desktopTokens with
    | some td =>
      let sess1 := { sess with activeDevices := removeKey sess.activeDevices td.userId }
      let sess2 := { sess1 with desktopTokens := removeKey sess1.desktopTokens token }
      (.success, db, sess2)
    | none => (.unknownToken, db, sess)

/-- Outcome of the browser `POST /auth/login` handler (rendered pages are
collapsed to their rejection reason). -/
inductive BrowserLoginResult
  | validationError
  | invalidCredentials
  | deactivated
  | packageExpired
  | success
deriving DecidableEq, Repr

/-- Browser `POST /auth/login`.  Mirrors the handler: validation,
`User.findOne({ email })` (unknown email renders the generic
"Invalid email or password"), `isActive` check, package-validity check for
non-admins, bcrypt comparison (same generic message), then last-login stamp
and session establishment. -/
def browserLogin (db : List User) (email password : String) (now : Int) :
    BrowserLoginResult × List User :=
  if email == "" || password == "" then (.validationError, db)
  else
    match findByEmail db email with
    | none => (.invalidCredentials, db)
    | some user =>
      if !user.isActive then (.deactivated, db)
      else if !user.isAdmin && !user.isPackageValid now then
        (.packageExpired, db)
      else if !user.comparePassword password then (.invalidCredentials, db)
      else (.success, updateUser db { user with lastLogin := some now })

/-- Outcome of the `checkPackageValidity` middleware: redirect to the login
page (no session user, or the user record vanished — session destroyed),
403 deactivated (session destroyed), 403 package expired, or `next` with the
reloaded user. -/
inductive MiddlewareResult
  | redirectLogin
  | deactivated
  | packageExpired
  | next (u : User)
deriving DecidableEq, Repr

/-- `checkPackageValidity` (middleware/auth.js): re-reads the authoritative
user record for the session's user id and rejects on deactivation or (for
non-admins) package expiry. -/
def checkPackageValidity (db : List User) (sessionUserId : Option Nat)
    (now : Int) : MiddlewareResult :=
  match sessionUserId with
  | none => .redirectLogin
  | some uid =>
    match findById db uid with
    | none => .redirectLogin
    | some user =>
      if !user.isActive then .deactivated
      else if !user.isAdmin && !user.isPackageValid now then .packageExpired
      else .next user

/-- Outcome of `POST /admin/users/bulk-action`. -/
inductive BulkActionResult
  | noUsersSelected
  | activatedUsers
  | deactivatedUsers
  | cannotDeleteAllAdmins
  | deletedUsers
  | invalidAction
deriving DecidableEq, Repr

/-- `POST /admin/users/bulk-action`.  Mirrors the handler: empty selection
check, then the `switch (action)`.  The `delete` case loads the selected
admin accounts, and if any are selected it refuses whenever the total admin
count does not exceed the number of selected admins; otherwise
`User.deleteMany({ _id: { $in: userIds } })` removes every selected user. -/
def bulkAction (db : List User) (action : String) (userIds : List Nat) :
    BulkActionResult × List User :=
  if userIds == [] then (.noUsersSelected, db)
  else if action == "activate" then
    (.activatedUsers,
      db.map (fun u => if userIds.contains u.uid then { u with isActive := true } else u))
  else if action == "deactivate" then
    (.deactivatedUsers,
      db.map (fun u => if userIds.contains u.uid then { u with isActive := false } else u))
  else if action == "delete" then
    let adminUsers := db.filter (fun u => userIds.contains u.uid && u.role == Role.admin)
    if adminUsers.length > 0 then
      if countAdmins db ≤ adminUsers.length then (.cannotDeleteAllAdmins, db)
      else (.deletedUsers, db.filter (fun u => !userIds.contains u.uid))
    else (.deletedUsers, db.filter (fun u => !userIds.contains u.uid))
  else (.invalidAction, db)

/-- Outcome of `POST /admin/users/delete/:id`. -/
inductive DeleteUserResult
  | notFound
  | lastAdmin
  | deleted
deriving DecidableEq, Repr

/-- `POST /admin/users/delete/:id`.  Mirrors the handler: `findById`, then
for an admin target refuse when `countDocuments({ role: "admin" }) <= 1`,
otherwise `findByIdAndDelete`. -/
def deleteUser (db : List User) (id : Nat) : DeleteUserResult × List User :=
  match findById db id with
  | none => (.notFound, db)
  | some user =>
    if user.role == Role.admin then
      if countAdmins db ≤ 1 then (.lastAdmin, db)
      else (.deleted, db.filter (fun u => !(u.uid == id)))
    else (.deleted, db.filter (fun u => !(u.uid == id)))

/-- Outcome of `POST /admin/packages/delete/:id`. -/
inductive DeletePackageResult
  | notFound
  | inUse
  | deleted
deriving DecidableEq, Repr

/-- `POST /admin/packages/delete/:id`.  Mirrors the handler:
`Package.findById`, then `User.countDocuments({ package: pkg._id })`; a
positive count refuses, otherwise `findByIdAndDelete`. -/
def deletePackage (pkgs : List Package) (db : List User) (id : Nat) :
    DeletePackageResult × List Package :=
  match findPackage pkgs id with
  | none => (.notFound, pkgs)
  | some pkg =>
    let usersWithPackage := (db.filter (fun u => u.package == some pkg.pid)).length
    if usersWithPackage > 0 then (.inUse, pkgs)
    else (.deleted, pkgs.filter (fun p => !(p.pid == id)))

/-- The express-session backing store: session id → session payload.  A
request carrying no valid session cookie gets a brand-new empty session
(`saveUninitialized: false` keeps it out of the store until written). -/
def getSession (store : List (String × Session)) (sid : Option String) :
    Session :=
  match sid with
  | none => Session.empty
  | some s => (List.lookup s store).getD Session.empty

/-- Writing the (possibly mutated) session back to the store at request
end. -/
def putSession (store : List (String × Session)) (sid : String)
    (sess : Session) : List (String × Session) :=
  insertKey store sid sess

/-- `req.session.destroy()` / store TTL expiry: the session id is removed
from the store, taking its whole payload (desktop tokens included) with
it. -/
def destroySession (store : List (String × Session)) (sid : String) :
    List (String × Session) :=
  removeKey store sid

/-- Desktop login at the session-store level: the request's session is
resolved from the store by cookie, the handler runs, and the mutated
session is saved back under the same id. -/
def apiLoginStore (pkgs : List Package) (db : List User)
    (store : List (String × Session)) (sid : String)
    (username password device_id freshToken : String) (now : Int) :
    ApiLoginResult × List User × List (String × Session) :=
  let sess := getSession store (some sid)
  let out := apiLogin pkgs db sess username password device_id freshToken now
  (out.1, out.2.1, putSession store sid out.2.2)

/-- Token verification at the session-store level.  A request without a
session cookie operates on a fresh empty session that is not persisted. -/
def verifyTokenStore (pkgs : List Package) (db : List User)
    (store : List (String × Session)) (sid : Option String) (token : String)
    (now : Int) : VerifyResult × List (String × Session) :=
  let sess := getSession store sid
  let out := verifyToken pkgs db sess token now
  match sid with
  | some s => (out.1, putSession store s out.2)
  | none => (out.1, store)

/-- Desktop logout at the session-store level. -/
def apiLogoutStore (db : List User) (store : List (String × Session))
    (sid : Option String) (token : String) :
    LogoutResult × List User × List (String × Session) :=
  let sess := getSession store sid
  let out := apiLogout db sess token
  match sid with
  | some s => (out.1, out.2.1, putSession store s out.2.2)
  | none => (out.1, out.2.1, store)

/-! Helper lemmas about the association-list and directory primitives. -/

theorem lookup_removeKey_self {α β : Type} [BEq α] [LawfulBEq α]
    (l : List (α × β)) (k : α) : List.lookup k (removeKey l k) = none := by
  induction l with
  | nil => rfl
  | cons p t ih =>
    by_cases h : p.1 = k
    · simpa [removeKey, h] using ih
    · have hb : (p.1 == k) = false := beq_eq_false_iff_ne.2 h
      have hb2 : (k == p.1) = false := beq_eq_false_iff_ne.2 (Ne.symm h)
      simpa [removeKey, hb, hb2, List.lookup] using ih

theorem lookup_removeKey_ne {α β : Type} [BEq α] [LawfulBEq α]
    (l : List (α × β)) (k k' : α) (h : k ≠ k') :
    List.lookup k (removeKey l k') = List.lookup k l := by
  induction l with
  | nil => rfl
  | cons p t ih =>
    by_cases hp : p.1 = k'
    · have hb : (p.1 == k') = true := beq_iff_eq.2 hp
      have hb2 : (k == p.1) = false := beq_eq_false_iff_ne.2 (hp ▸ h)
      simpa [removeKey, hb, hb2, List.lookup] using ih
    · have hb : (p.1 == k') = false := beq_eq_false_iff_ne.2 hp
      by_cases hk : k = p.1
      · simp [removeKey, hb, List.lookup, hk]
      · have hb2 : (k == p.1) = false := beq_eq_false_iff_ne.2 hk
        simpa [removeKey, hb, hb2, List.lookup] using ih

theorem lookup_insertKey_self {α β : Type} [BEq α] [LawfulBEq α]
    (l : List (α × β)) (k : α) (v : β) :
    List.lookup k (insertKey l k v) = some v := by
  simp [insertKey, List.lookup]

theorem lookup_insertKey_ne {α β : Type} [BEq α] [LawfulBEq α]
    (l : List (α × β)) (k k' : α) (v : β) (h : k ≠ k') :
    List.lookup k (insertKey l k' v) = List.lookup k l := by
  have hb : (k == k') = false := beq_eq_false_iff_ne.2 h
  simp [insertKey, List.lookup, hb, lookup_removeKey_ne l k k' h]

theorem mem_of_lookup_eq_some {α β : Type} [BEq α] [LawfulBEq α]
    {l : List (α × β)} {k : α} {v : β} (h : List.lookup k l = some v) :
    (k, v) ∈ l := by
  induction l with
  | nil => simp [List.lookup] at h
  | cons p t ih =>
    by_cases hk : k = p.1
    · have hb : (k == p.1) = true := beq_iff_eq.2 hk
      simp [List.lookup, hb] at h
      subst h
      exact hk ▸ (by cases p; simp)
    · have hb : (k == p.1) = false := beq_eq_false_iff_ne.2 hk
      simp [List.lookup, hb] at h
      exact List.mem_cons_of_mem _ (ih h)

theorem length_filter_split {α : Type} (l : List α) (p q : α → Bool) :
    (l.filter p).length =
      (l.filter (fun x => p x && q x)).length +
        (l.filter (fun x => p x && !q x)).length := by
  induction l with
  | nil => rfl
  | cons a t ih =>
    cases hp : p a <;> cases hq : q a <;>
      simp [List.filter, hp, hq, ih] <;> omega

theorem map_updateUser (db : List User) (u : User) (f : User → Option String)
    (h : ∀ v ∈ db, v.uid = u.uid → f v = f u) :
    (updateUser db u).map f = db.map f := by
  unfold updateUser
  rw [List.map_map]
  refine List.map_congr_left ?_
  intro v hv
  by_cases hid : v.uid = u.uid
  · have hb : (v.uid == u.uid) = true := beq_iff_eq.2 hid
    simp [Function.comp, hb, (h v hv hid).symm]
  · have hb : (v.uid == u.uid) = false := beq_eq_false_iff_ne.2 hid
    simp [Function.comp, hb]

/-! Concrete fixtures used by counterexamples and witnesses. -/

/-- A concrete active package, id 1. -/
def premiumPkg : Package := ⟨1, "Premium", 1000, 10, true⟩

/-- A concrete active standard-role account holding package 1, entitlement
end at millisecond 1000000, no device bound yet. -/
def aliceBase : User :=
  { uid := 1
    username := "alice"
    email := "alice@example.com"
    password := "correctpw"
    role := Role.user
    package := some 1
    packageEndDate := some 1000000
    isActive := true
    registeredDeviceId := none
    lastLogin := none }

/-- A deactivated standard-role account with an otherwise valid setup. -/
def inactiveBob : User :=
  { uid := 2
    username := "bob"
    email := "bob@example.com"
    password := "correctpw"
    role := Role.user
    package := some 1
    packageEndDate := some 1000000
    isActive := false
    registeredDeviceId := none
    lastLogin := none }

/-! Claim C3: entitlement boundary. -/

/-- C3 counterexample: the claim says an active standard account whose
entitlement end equals the current instant is entitled (`now <= end`), but
`isPackageValid` uses the strict comparison `packageEndDate > now`, so at
`now = packageEndDate = 1000000` the account is NOT entitled. -/
theorem C3_boundary_counterexample :
    aliceBase.isActive = true ∧
    aliceBase.role = Role.user ∧
    aliceBase.packageEndDate = some 1000000 ∧
    (1000000 : Int) ≤ 1000000 ∧
    aliceBase.isPackageValid 1000000 = false :=
  ⟨rfl, rfl, rfl, le_refl _, by decide⟩

/-- C3 amended: for every active standard-role account, `isPackageValid` is
true iff the current time is STRICTLY below the entitlement end; at the
boundary (`now = end`) the account is not entitled, and one second
(1000 ms) past the end it is not entitled either. -/
theorem C3_entitlement_strict (u : User) (e now : Int)
    (hA : u.isActive = true) (hE : u.packageEndDate = some e) :
    (u.isPackageValid now = true ↔ now < e) ∧
    u.isPackageValid e = false ∧
    u.isPackageValid (e + 1000) = false := by
  refine ⟨?_, ?_, ?_⟩
  · simp [User.isPackageValid, hA, hE]
  · simp [User.isPackageValid, hA, hE]
  · simp only [User.isPackageValid, hA, hE, Bool.true_and,
      decide_eq_false_iff_not]
    omega

/-- C3 witness: the amended theorem applied to the concrete account
`aliceBase` (entitlement end 1000000) at time 500. -/
theorem C3_entitlement_strict_witness :
    (aliceBase.isPackageValid 500 = true ↔ (500 : Int) < 1000000) ∧
    aliceBase.isPackageValid 1000000 = false ∧
    aliceBase.isPackageValid (1000000 + 1000) = false :=
  C3_entitlement_strict aliceBase 1000000 500 rfl rfl

/-! Claim C9: days-until-expiry is a ceiling and may be negative. -/

/-- C9: for every account that has an entitlement end, `getDaysUntilExpiry`
returns the integer `d` characterised by the ceiling inequalities
`remaining ≤ d < remaining + 1` (in days of 86400000 ms), and whenever the
account is at least one full day past its end the value is negative. -/
theorem C9_days_until_expiry_ceiling (u : User) (e now : Int)
    (hE : u.packageEndDate = some e) :
    ∃ d : Int, u.getDaysUntilExpiry now = some d ∧
      ((e : ℚ) - (now : ℚ)) / 86400000 ≤ (d : ℚ) ∧
      (d : ℚ) - 1 < ((e : ℚ) - (now : ℚ)) / 86400000 ∧
      (e + 86400000 ≤ now → d < 0) := by
  refine ⟨⌈((e : ℚ) - (now : ℚ)) / (1000 * 60 * 60 * 24)⌉, ?_, ?_, ?_, ?_⟩
  · simp [User.getDaysUntilExpiry, hE]
  · have h := Int.le_ceil (((e : ℚ) - (now : ℚ)) / (1000 * 60 * 60 * 24))
    norm_num at h ⊢
    exact h
  · have h := Int.ceil_lt_add_one (((e : ℚ) - (now : ℚ)) / (1000 * 60 * 60 * 24))
    norm_num at h ⊢
    linarith
  · intro h
    have hcast : (e : ℚ) + 86400000 ≤ (now : ℚ) := by exact_mod_cast h
    have hq : ((e : ℚ) - (now : ℚ)) / (1000 * 60 * 60 * 24) ≤ ((-1 : Int) : ℚ) := by
      rw [div_le_iff₀ (by norm_num : (0 : ℚ) < 1000 * 60 * 60 * 24)]
      push_cast
      linarith
    have hle := Int.ceil_le.2 hq
    omega

/-- C9 witness: the theorem applied to `aliceBase` (end 1000000) at a time
one full day past the end; the remaining-days value is negative. -/
theorem C9_days_until_expiry_ceiling_witness :
    ∃ d : Int, aliceBase.getDaysUntilExpiry 87400000 = some d ∧
      ((1000000 : ℚ) - (87400000 : ℚ)) / 86400000 ≤ (d : ℚ) ∧
      (d : ℚ) - 1 < ((1000000 : ℚ) - (87400000 : ℚ)) / 86400000 ∧
      ((1000000 : Int) + 86400000 ≤ 87400000 → d < 0) :=
  C9_days_until_expiry_ceiling aliceBase 1000000 87400000 rfl

/-! Claim C6: package deletion and referential integrity. -/

/-- C6: package deletion refuses (leaving the package list untouched)
whenever at least one account references the package, and deletes the
package exactly when no account references it. -/
theorem C6_package_delete_referential (pkgs : List Package) (db : List User)
    (id : Nat) (pkg : Package) (hF : findPackage pkgs id = some pkg) :
    (0 < (db.filter (fun u => u.package == some pkg.pid)).length →
      deletePackage pkgs db id = (.inUse, pkgs)) ∧
    ((db.filter (fun u => u.package == some pkg.pid)).length = 0 →
      deletePackage pkgs db id =
        (.deleted, pkgs.filter (fun p => !(p.pid == id)))) := by
  constructor
  · intro h
    simp [deletePackage, hF, h]
  · intro h
    simp [deletePackage, hF, h]

/-- C6 witness: with `aliceBase` referencing package 1, deletion of package
1 refuses; with an empty account directory it deletes. -/
theorem C6_package_delete_referential_witness :
    (0 < ([aliceBase].filter (fun u => u.package == some premiumPkg.pid)).length →
      deletePackage [premiumPkg] [aliceBase] 1 = (.inUse, [premiumPkg])) ∧
    (([aliceBase].filter (fun u => u.package == some premiumPkg.pid)).length = 0 →
      deletePackage [premiumPkg] [aliceBase] 1 =
        (.deleted, [premiumPkg].filter (fun p => !(p.pid == 1)))) :=
  C6_package_delete_referential [premiumPkg] [aliceBase] 1 premiumPkg rfl

/-! Claim C4: deactivated accounts are rejected on every path. -/

/-- C4: for every account with the activation flag false, the entitlement
check is false and each authentication path — browser login, desktop login,
desktop token verify, and the session-revalidation middleware — answers
with the deactivated rejection, regardless of role or entitlement window. -/
theorem C4_inactive_rejected_everywhere (u : User) (hA : u.isActive = false) :
    (∀ now, u.isPackageValid now = false) ∧
    (∀ db email pw now, email ≠ "" → pw ≠ "" →
      findByEmail db email = some u →
      (browserLogin db email pw now).1 = .deactivated) ∧
    (∀ pkgs db sess un pw dev tok now, un ≠ "" → pw ≠ "" → dev ≠ "" →
      findByUsername db un = some u →
      (apiLogin pkgs db sess un pw dev tok now).1 = .deactivated) ∧
    (∀ pkgs db sess tok td now, tok ≠ "" →
      List.lookup tok sess.desktopTokens = some td →
      findById db td.userId = some u →
      (verifyToken pkgs db sess tok now).1 = .deactivated) ∧
    (∀ db uid now, findById db uid = some u →
      checkPackageValidity db (some uid) now = .deactivated) := by
  refine ⟨?_, ?_, ?_, ?_, ?_⟩
  · intro now
    simp [User.isPackageValid, hA]
  · intro db email pw now hem hpw hf
    simp [browserLogin, beq_eq_false_iff_ne.2 hem, beq_eq_false_iff_ne.2 hpw,
      hf, hA]
  · intro pkgs db sess un pw dev tok now hun hpw hdev hf
    simp [apiLogin, beq_eq_false_iff_ne.2 hun, beq_eq_false_iff_ne.2 hpw,
      beq_eq_false_iff_ne.2 hdev, hf, hA]
  · intro pkgs db sess tok td now htok hl hf
    simp [verifyToken, beq_eq_false_iff_ne.2 htok, hl, hf, hA]
  · intro db uid now hf
    simp [checkPackageValidity, hf, hA]

/-- C4 witness: the deactivated account `inactiveBob` is rejected by the
session-revalidation middleware and by desktop login. -/
theorem C4_inactive_rejected_everywhere_witness :
    checkPackageValidity [inactiveBob] (some 2) 0 = .deactivated ∧
    (apiLogin [premiumPkg] [inactiveBob] Session.empty "bob" "correctpw"
        "dev-1" "tok" 0).1 = .deactivated :=
  ⟨(C4_inactive_rejected_everywhere inactiveBob rfl).2.2.2.2 [inactiveBob] 2 0 rfl,
    (C4_inactive_rejected_everywhere inactiveBob rfl).2.2.1 [premiumPkg]
      [inactiveBob] Session.empty "bob" "correctpw" "dev-1" "tok" 0
      (by decide) (by decide) (by decide) rfl⟩

/-! Claim C2: desktop-login rejection priority. -/

/-- C2 counterexample: the claim says an existing account with a wrong
password always gets the generic 401, never revealing deactivation — but the
handler checks `isActive` BEFORE comparing the password, so the deactivated
account `inactiveBob` with a wrong password receives the 403 deactivated
response, not the generic 401. -/
theorem C2_wrong_password_reveals_deactivation :
    inactiveBob.isActive = false ∧
    inactiveBob.comparePassword "wrongpw" = false ∧
    findByUsername [inactiveBob] "bob" = some inactiveBob ∧
    (apiLogin [premiumPkg] [inactiveBob] Session.empty "bob" "wrongpw"
        "dev-1" "tok" 0).1 = .deactivated ∧
    ApiLoginResult.deactivated ≠ .invalidCredentials ∧
    ApiLoginResult.deactivated.status = 403 := by
  refine ⟨rfl, by decide, rfl, by decide, by decide, rfl⟩

/-- C2 amended: desktop login rejects in this priority order: unknown
account (401, generic message), deactivated (403), entitlement expired
(403), wrong password (401, the same generic message as for an unknown
account), device mismatch (403).  Unknown-account and wrong-password map to
the single generic "Invalid username or password" 401, but the password is
only compared after the deactivated/expired checks, so a wrong password on
an existing deactivated or expired account yields the 403 status response
rather than the generic 401. -/
theorem C2_rejection_order (pkgs : List Package) (db : List User)
    (sess : Session) (un pw dev tok : String) (now : Int)
    (hU : un ≠ "") (hP : pw ≠ "") (hD : dev ≠ "") :
    (findByUsername db un = none →
      (apiLogin pkgs db sess un pw dev tok now).1 = .invalidCredentials) ∧
    (∀ u, findByUsername db un = some u → u.isActive = false →
      (apiLogin pkgs db sess un pw dev tok now).1 = .deactivated) ∧
    (∀ u, findByUsername db un = some u → u.isActive = true →
      u.isAdmin = false → u.isPackageValid now = false →
      (apiLogin pkgs db sess un pw dev tok now).1 = .packageExpired) ∧
    (∀ u, findByUsername db un = some u → u.isActive = true →
      (u.isAdmin = true ∨ u.isPackageValid now = true) →
      u.comparePassword pw = false →
      (apiLogin pkgs db sess un pw dev tok now).1 = .invalidCredentials) ∧
    (∀ u d, findByUsername db un = some u → u.isActive = true →
      (u.isAdmin = true ∨ u.isPackageValid now = true) →
      u.comparePassword pw = true → u.registeredDeviceId = some d →
      d ≠ dev →
      (apiLogin pkgs db sess un pw dev tok now).1 = .deviceMismatch) ∧
    ApiLoginResult.invalidCredentials.message = "Invalid username or password" ∧
    ApiLoginResult.invalidCredentials.status = 401 ∧
    ApiLoginResult.deactivated.status = 403 ∧
    ApiLoginResult.packageExpired.status = 403 ∧
    ApiLoginResult.deviceMismatch.status = 403 := by
  have hu : (un == "") = false := beq_eq_false_iff_ne.2 hU
  have hp : (pw == "") = false := beq_eq_false_iff_ne.2 hP
  have hd : (dev == "") = false := beq_eq_false_iff_ne.2 hD
  refine ⟨?_, ?_, ?_, ?_, ?_, rfl, rfl, rfl, rfl, rfl⟩
  · intro hf
    simp [apiLogin, hu, hp, hd, hf]
  · intro u hf hA
    simp [apiLogin, hu, hp, hd, hf, hA]
  · intro u hf hA hAd hPk
    simp [apiLogin, hu, hp, hd, hf, hA, hAd, hPk]
  · intro u hf hA hEnt hPw
    rcases hEnt with hAd | hPk
    · simp [apiLogin, hu, hp, hd, hf, hA, hAd, hPw]
    · simp [apiLogin, hu, hp, hd, hf, hA, hPk, hPw]
  · intro u d hf hA hEnt hPw hDev hne
    rcases hEnt with hAd | hPk
    · simp [apiLogin, hu, hp, hd, hf, hA, hAd, hPw, hDev, hne]
    · simp [apiLogin, hu, hp, hd, hf, hA, hPk, hPw, hDev, hne]

/-- C2 witness: the amended ordering applied at a concrete input — an
unknown username on an empty directory receives the generic 401. -/
theorem C2_rejection_order_witness :
    (apiLogin [] [] Session.empty "nobody" "pw" "dev-1" "tok" 0).1
      = .invalidCredentials :=
  (C2_rejection_order [] [] Session.empty "nobody" "pw" "dev-1" "tok" 0
    (by decide) (by decide) (by decide)).1 rfl

/-! Claim C1: verify-token against the account's bound device. -/

/-- The state of `aliceBase` after a first successful desktop login from
device "dev-1" at time 0: device bound, last login stamped. -/
def aliceBound : User :=
  { aliceBase with registeredDeviceId := some "dev-1", lastLogin := some 0 }

/-- Output of a concrete successful desktop login: fresh session, fresh
account `aliceBase`, device "dev-1", issued token "tok". -/
def c1Login : ApiLoginResult × List User × Session :=
  apiLogin [premiumPkg] [aliceBase] Session.empty "alice" "correctpw" "dev-1"
    "tok" 0

/-- Output of verifying the very token just issued, in the very session
that issued it, against the resulting account directory. -/
def c1Verify : VerifyResult × Session :=
  verifyToken [premiumPkg] c1Login.2.1 c1Login.2.2 "tok" 0

/-- C1: the login succeeds and binds "dev-1"; the token record exists, the
owning account is entitled, and the account's current `registeredDeviceId`
equals the device recorded on the token — yet verify-token answers 401
(device-superseded) and deletes the token, because the handler compares the
token's device against `req.session.activeDevices[userId]`, a table no code
path ever populates, instead of against `registeredDeviceId`.  The claim
(and the repository's own API documentation, which promises a success
response for a valid token) says this verify must return the identity
summary. -/
theorem C1_verify_rejects_valid_token :
    c1Login.1 = .success "tok" (mkUserSummary [premiumPkg] aliceBound) ∧
    findById c1Login.2.1 1 = some aliceBound ∧
    aliceBound.registeredDeviceId = some "dev-1" ∧
    List.lookup "tok" c1Login.2.2.desktopTokens = some ⟨1, "dev-1", 0⟩ ∧
    aliceBound.isActive = true ∧
    aliceBound.isPackageValid 0 = true ∧
    c1Verify.1 = .deviceSuperseded ∧
    VerifyResult.deviceSuperseded.status = 401 ∧
    List.lookup "tok" c1Verify.2.desktopTokens = none := by
  decide

/-! Claim C8: desktop logout removes the token and nothing else. -/

/-- C8: logout with a known token answers success, removes the token record
(so a subsequent verify of the same token answers 401 invalid-token), and
leaves the whole account directory — in particular every
`registeredDeviceId` — untouched; logout with an unknown token changes no
state and answers 401; logout with a missing token changes no state and
answers 400. -/
theorem C8_logout_frame (db : List User) (sess : Session) (tok : String)
    (td : TokenData) (hT : tok ≠ "") :
    (List.lookup tok sess.desktopTokens = some td →
      (apiLogout db sess tok).1 = .success ∧
      List.lookup tok ((apiLogout db sess tok).2.2).desktopTokens = none ∧
      (∀ pkgs now,
        (verifyToken pkgs db ((apiLogout db sess tok).2.2) tok now).1
          = .invalidToken) ∧
      (apiLogout db sess tok).2.1 = db) ∧
    (List.lookup tok sess.desktopTokens = none →
      apiLogout db sess tok = (.unknownToken, db, sess)) ∧
    apiLogout db sess "" = (.missingToken, db, sess) ∧
    LogoutResult.success.status = 200 ∧
    LogoutResult.unknownToken.status = 401 ∧
    LogoutResult.missingToken.status = 400 := by
  have ht : (tok == "") = false := beq_eq_false_iff_ne.2 hT
  refine ⟨?_, ?_, by simp [apiLogout], rfl, rfl, rfl⟩
  · intro hl
    refine ⟨by simp [apiLogout, ht, hl], ?_, ?_, by simp [apiLogout, ht, hl]⟩
    · simp [apiLogout, ht, hl, lookup_removeKey_self]
    · intro pkgs now
      simp [verifyToken, apiLogout, ht, hl, lookup_removeKey_self]
  · intro hl
    simp [apiLogout, ht, hl]

/-- A concrete session holding the token "tok" for account 1 on device
"dev-1". -/
def sessWithTok : Session := ⟨[("tok", ⟨1, "dev-1", 0⟩)], [(1, "dev-1")]⟩

/-- C8 witness: the theorem applied to the concrete session `sessWithTok`
and directory `[aliceBase]`. -/
theorem C8_logout_frame_witness :
    (apiLogout [aliceBase] sessWithTok "tok").1 = .success ∧
    List.lookup "tok"
        ((apiLogout [aliceBase] sessWithTok "tok").2.2).desktopTokens = none ∧
    (verifyToken [premiumPkg] [aliceBase]
        ((apiLogout [aliceBase] sessWithTok "tok").2.2) "tok" 0).1
      = .invalidToken ∧
    (apiLogout [aliceBase] sessWithTok "tok").2.1 = [aliceBase] :=
  have h :=
    (C8_logout_frame [aliceBase] sessWithTok "tok" ⟨1, "dev-1", 0⟩
      (by decide)).1 rfl
  ⟨h.1, h.2.1, h.2.2.1 [premiumPkg] 0, h.2.2.2⟩

/-! Shared lemmas about the desktop-login pipeline and directory updates. -/

theorem apiLogin_eq_of_bound (pkgs : List Package) (db : List User)
    (sess : Session) (un pw dev tok : String) (now : Int) (u : User)
    (hU : un ≠ "") (hP : pw ≠ "") (hD : dev ≠ "")
    (hFound : findByUsername db un = some u)
    (hA : u.isActive = true)
    (hEnt : u.isAdmin = true ∨ u.isPackageValid now = true)
    (hPw : u.comparePassword pw = true)
    (hDev : u.registeredDeviceId = some dev) :
    apiLogin pkgs db sess un pw dev tok now =
      apiLoginCommit pkgs db sess u dev tok now := by
  have hu : (un == "") = false := beq_eq_false_iff_ne.2 hU
  have hp : (pw == "") = false := beq_eq_false_iff_ne.2 hP
  have hd : (dev == "") = false := beq_eq_false_iff_ne.2 hD
  rcases hEnt with hAd | hPk
  · simp [apiLogin, hu, hp, hd, hFound, hA, hAd, hPw, hDev]
  · simp [apiLogin, hu, hp, hd, hFound, hA, hPk, hPw, hDev]

theorem apiLogin_eq_of_unbound (pkgs : List Package) (db : List User)
    (sess : Session) (un pw dev tok : String) (now : Int) (u : User)
    (hU : un ≠ "") (hP : pw ≠ "") (hD : dev ≠ "")
    (hFound : findByUsername db un = some u)
    (hA : u.isActive = true)
    (hEnt : u.isAdmin = true ∨ u.isPackageValid now = true)
    (hPw : u.comparePassword pw = true)
    (hDev : u.registeredDeviceId = none) :
    apiLogin pkgs db sess un pw dev tok now =
      apiLoginCommit pkgs
        (updateUser db { u with registeredDeviceId := some dev }) sess
        { u with registeredDeviceId := some dev } dev tok now := by
  have hu : (un == "") = false := beq_eq_false_iff_ne.2 hU
  have hp : (pw == "") = false := beq_eq_false_iff_ne.2 hP
  have hd : (dev == "") = false := beq_eq_false_iff_ne.2 hD
  rcases hEnt with hAd | hPk
  · simp [apiLogin, hu, hp, hd, hFound, hA, hAd, hPw, hDev]
  · simp [apiLogin, hu, hp, hd, hFound, hA, hPk, hPw, hDev]

theorem apiLogin_eq_of_mismatch (pkgs : List Package) (db : List User)
    (sess : Session) (un pw dev tok : String) (now : Int) (u : User)
    (d : String)
    (hU : un ≠ "") (hP : pw ≠ "") (hD : dev ≠ "")
    (hFound : findByUsername db un = some u)
    (hA : u.isActive = true)
    (hEnt : u.isAdmin = true ∨ u.isPackageValid now = true)
    (hPw : u.comparePassword pw = true)
    (hDev : u.registeredDeviceId = some d) (hne : d ≠ dev) :
    apiLogin pkgs db sess un pw dev tok now = (.deviceMismatch, db, sess) := by
  have hu : (un == "") = false := beq_eq_false_iff_ne.2 hU
  have hp : (pw == "") = false := beq_eq_false_iff_ne.2 hP
  have hd : (dev == "") = false := beq_eq_false_iff_ne.2 hD
  rcases hEnt with hAd | hPk
  · simp [apiLogin, hu, hp, hd, hFound, hA, hAd, hPw, hDev, hne]
  · simp [apiLogin, hu, hp, hd, hFound, hA, hPk, hPw, hDev, hne]

theorem updateUser_updateUser (db : List User) (w1 w2 : User)
    (h : w1.uid = w2.uid) :
    updateUser (updateUser db w1) w2 = updateUser db w2 := by
  unfold updateUser
  rw [List.map_map]
  apply List.map_congr_left
  intro v hv
  by_cases hvw : v.uid = w1.uid
  · have hb1 : (v.uid == w1.uid) = true := beq_iff_eq.2 hvw
    have hb2 : (w1.uid == w2.uid) = true := beq_iff_eq.2 h
    have hb3 : (v.uid == w2.uid) = true := beq_iff_eq.2 (hvw.trans h)
    simp [Function.comp, hb1, hb2, hb3]
  · have hb1 : (v.uid == w1.uid) = false := beq_eq_false_iff_ne.2 hvw
    simp [Function.comp, hb1]

theorem updateUser_cons (a : User) (t : List User) (w : User) :
    updateUser (a :: t) w =
      (if a.uid == w.uid then w else a) :: updateUser t w := rfl

theorem findById_cons (a : User) (t : List User) (i : Nat) :
    findById (a :: t) i = if a.uid == i then some a else findById t i := by
  cases h : a.uid == i <;> simp [findById, List.find?, h]

theorem findById_updateUser (db : List User) (w : User)
    (hmem : ∃ v ∈ db, v.uid = w.uid) :
    findById (updateUser db w) w.uid = some w := by
  induction db with
  | nil =>
    rcases hmem with ⟨v, hv, _⟩
    cases hv
  | cons a t ih =>
    rw [updateUser_cons, findById_cons]
    by_cases ha : a.uid = w.uid
    · have hb : (a.uid == w.uid) = true := beq_iff_eq.2 ha
      simp [hb]
    · have hb : (a.uid == w.uid) = false := beq_eq_false_iff_ne.2 ha
      rcases hmem with ⟨v, hv, hvw⟩
      rcases List.mem_cons.1 hv with rfl | hvt
      · exact absurd hvw ha
      · simpa [hb] using ih ⟨v, hvt, hvw⟩

/-! Claim C7: device binding is idempotent / first-claim / exclusive. -/

/-- C7: for a login attempt that passes the credential and entitlement
checks, (a) an account already bound to the presented device logs in
successfully and the bound-device field of every account is unchanged,
(b) an unbound account logs in successfully and its bound-device field is
set to the presented device identifier (with the last-login stamp the only
other change), and (c) an account bound to a different device is rejected
with device-mismatch and the whole state — directory and session — is
unchanged. -/
theorem C7_device_binding (pkgs : List Package) (db : List User)
    (sess : Session) (un pw dev tok : String) (now : Int) (u : User)
    (hNodup : (db.map User.uid).Nodup)
    (hU : un ≠ "") (hP : pw ≠ "") (hD : dev ≠ "")
    (hFound : findByUsername db un = some u)
    (hA : u.isActive = true)
    (hEnt : u.isAdmin = true ∨ u.isPackageValid now = true)
    (hPw : u.comparePassword pw = true) :
    (u.registeredDeviceId = some dev →
      (∃ s, (apiLogin pkgs db sess un pw dev tok now).1 = .success tok s) ∧
      ((apiLogin pkgs db sess un pw dev tok now).2.1).map User.registeredDeviceId
        = db.map User.registeredDeviceId) ∧
    (u.registeredDeviceId = none →
      (∃ s, (apiLogin pkgs db sess un pw dev tok now).1 = .success tok s) ∧
      findById ((apiLogin pkgs db sess un pw dev tok now).2.1) u.uid
        = some { u with registeredDeviceId := some dev, lastLogin := some now }) ∧
    (∀ d, u.registeredDeviceId = some d → d ≠ dev →
      apiLogin pkgs db sess un pw dev tok now = (.deviceMismatch, db, sess)) := by
  have hmem : u ∈ db := List.mem_of_find?_eq_some hFound
  refine ⟨?_, ?_, ?_⟩
  · intro hDev
    rw [apiLogin_eq_of_bound pkgs db sess un pw dev tok now u
      hU hP hD hFound hA hEnt hPw hDev]
    refine ⟨⟨_, rfl⟩, ?_⟩
    show (updateUser db { u with lastLogin := some now }).map
      User.registeredDeviceId = _
    apply map_updateUser
    intro v hv hvid
    have hvu : v = u := List.inj_on_of_nodup_map hNodup hv hmem hvid
    rw [hvu]
  · intro hDev
    rw [apiLogin_eq_of_unbound pkgs db sess un pw dev tok now u
      hU hP hD hFound hA hEnt hPw hDev]
    refine ⟨⟨_, rfl⟩, ?_⟩
    show findById
      (updateUser (updateUser db { u with registeredDeviceId := some dev })
        { u with registeredDeviceId := some dev, lastLogin := some now })
      u.uid = _
    rw [updateUser_updateUser db { u with registeredDeviceId := some dev }
      { u with registeredDeviceId := some dev, lastLogin := some now } rfl]
    exact findById_updateUser db _ ⟨u, hmem, rfl⟩
  · intro d hDev hne
    exact apiLogin_eq_of_mismatch pkgs db sess un pw dev tok now u d
      hU hP hD hFound hA hEnt hPw hDev hne

/-- C7 witness: the theorem applied to the concrete unbound account
`aliceBase`: a first login from "dev-1" succeeds and binds the device. -/
theorem C7_device_binding_witness :
    (∃ s, (apiLogin [premiumPkg] [aliceBase] Session.empty "alice" "correctpw"
        "dev-1" "tok" 0).1 = .success "tok" s) ∧
    findById ((apiLogin [premiumPkg] [aliceBase] Session.empty "alice"
        "correctpw" "dev-1" "tok" 0).2.1) aliceBase.uid
      = some { aliceBase with
                registeredDeviceId := some "dev-1"
                lastLogin := some 0 } :=
  (C7_device_binding [premiumPkg] [aliceBase] Session.empty "alice"
      "correctpw" "dev-1" "tok" 0 aliceBase (by decide) (by decide)
      (by decide) (by decide) rfl rfl (Or.inr (by decide)) (by decide)).2.1
    rfl

/-! Counting lemmas for the admin-invariant claim. -/

theorem length_filter_and_le {α : Type} (l : List α) (p q : α → Bool) :
    (l.filter (fun x => p x && q x)).length ≤ (l.filter q).length := by
  have hsplit := length_filter_split l q p
  have hcomm : l.filter (fun x => p x && q x) = l.filter (fun x => q x && p x) :=
    List.filter_congr (fun x _ => Bool.and_comm _ _)
  rw [hcomm]
  omega

theorem countAdmins_filter_not (db : List User) (q : User → Bool) :
    countAdmins (db.filter (fun u => !q u))
      = countAdmins db
        - (db.filter (fun u => u.role == Role.admin && q u)).length := by
  unfold countAdmins
  rw [List.filter_filter]
  have hsplit :=
    length_filter_split db (fun u => u.role == Role.admin) q
  omega

theorem length_filter_uid_le_one (db : List User) (id : Nat)
    (hNodup : (db.map User.uid).Nodup) :
    (db.filter (fun u => u.uid == id)).length ≤ 1 := by
  induction db with
  | nil => simp
  | cons a t ih =>
    rw [List.map_cons, List.nodup_cons] at hNodup
    by_cases h : a.uid = id
    · have hb : (a.uid == id) = true := beq_iff_eq.2 h
      have hnil : t.filter (fun u => u.uid == id) = [] := by
        rw [List.filter_eq_nil_iff]
        intro v hv hbv
        exact hNodup.1 (by
          rw [List.mem_map]
          exact ⟨v, hv, by rw [beq_iff_eq.1 hbv, h]⟩)
      simp [hb, hnil]
    · have hb : (a.uid == id) = false := beq_eq_false_iff_ne.2 h
      simpa [hb] using ih hNodup.2

/-! Claim C5: account deletion preserves "at least one admin exists". -/

/-- C5: single-account delete refuses (changing nothing) when the target is
an admin and the admin count is one; bulk delete refuses (changing nothing)
when the selected set covers every current admin; and both operations
preserve the invariant that at least one admin account exists. -/
theorem C5_admin_invariant (db : List User)
    (hNodup : (db.map User.uid).Nodup) :
    (∀ id u, findById db id = some u → u.role = Role.admin →
      countAdmins db = 1 → deleteUser db id = (.lastAdmin, db)) ∧
    (∀ userIds, userIds ≠ [] → 0 < countAdmins db →
      (∀ u ∈ db, u.role = Role.admin → userIds.contains u.uid = true) →
      bulkAction db "delete" userIds = (.cannotDeleteAllAdmins, db)) ∧
    (∀ id, 0 < countAdmins db → 0 < countAdmins (deleteUser db id).2) ∧
    (∀ userIds, 0 < countAdmins db →
      0 < countAdmins (bulkAction db "delete" userIds).2) := by
  have hact : (("delete" : String) == "activate") = false := by decide
  have hdea : (("delete" : String) == "deactivate") = false := by decide
  have hdel : (("delete" : String) == "delete") = true := by decide
  refine ⟨?_, ?_, ?_, ?_⟩
  · intro id u hFind hAdm hCount
    have hb : (u.role == Role.admin) = true := beq_iff_eq.2 hAdm
    simp [deleteUser, hFind, hb, hCount]
  · intro userIds hne hpos hAll
    have h0 : (userIds == []) = false := beq_eq_false_iff_ne.2 hne
    have hfilter :
        db.filter (fun u => userIds.contains u.uid && u.role == Role.admin)
          = db.filter (fun u => u.role == Role.admin) := by
      apply List.filter_congr
      intro x hx
      by_cases hr : x.role = Role.admin
      · rw [hAll x hx hr, beq_iff_eq.2 hr]
        rfl
      · simp [beq_eq_false_iff_ne.2 hr]
    simp only [bulkAction, h0, hact, hdea, hdel, Bool.false_eq_true,
      if_false, if_true, hfilter]
    have hgt : (db.filter (fun u => u.role == Role.admin)).length > 0 := hpos
    have hle : countAdmins db ≤ (db.filter (fun u => u.role == Role.admin)).length :=
      Nat.le_of_eq rfl
    rw [if_pos hgt, if_pos hle]
  · intro id hpos
    unfold deleteUser
    cases hFind : findById db id with
    | none => exact hpos
    | some u =>
      have hFind' : db.find? (fun v => v.uid == id) = some u := hFind
      have humem : u ∈ db := List.mem_of_find?_eq_some hFind'
      have huid : u.uid = id :=
        beq_iff_eq.1 (@List.find?_some User (fun v => v.uid == id) u db hFind')
      by_cases hAdm : u.role = Role.admin
      · have hb : (u.role == Role.admin) = true := beq_iff_eq.2 hAdm
        by_cases hc : countAdmins db ≤ 1
        · simp only [hb, if_true, if_pos hc]
          exact hpos
        · simp only [hb, if_true, if_neg hc]
          have hrem : countAdmins (db.filter (fun u => !(u.uid == id)))
              = countAdmins db
                - (db.filter (fun u => u.role == Role.admin && u.uid == id)).length :=
            countAdmins_filter_not db (fun u => u.uid == id)
          have hle :
              (db.filter (fun u => u.role == Role.admin && u.uid == id)).length
                ≤ (db.filter (fun u => u.uid == id)).length :=
            length_filter_and_le db _ _
          have hone := length_filter_uid_le_one db id hNodup
          show 0 < countAdmins (db.filter (fun u => !(u.uid == id)))
          omega
      · have hb : (u.role == Role.admin) = false := beq_eq_false_iff_ne.2 hAdm
        simp only [hb, Bool.false_eq_true, if_false]
        have hrem : countAdmins (db.filter (fun u => !(u.uid == id)))
            = countAdmins db
              - (db.filter (fun u => u.role == Role.admin && u.uid == id)).length :=
          countAdmins_filter_not db (fun u => u.uid == id)
        have hnil :
            db.filter (fun u => u.role == Role.admin && u.uid == id) = [] := by
          rw [List.filter_eq_nil_iff]
          intro v hv hbv
          have hvadm : v.role = Role.admin := beq_iff_eq.1 (Bool.and_elim_left hbv)
          have hvid : v.uid = id := beq_iff_eq.1 (Bool.and_elim_right hbv)
          have hvu : v = u :=
            List.inj_on_of_nodup_map hNodup hv humem (hvid.trans huid.symm)
          exact hAdm (hvu ▸ hvadm)
        rw [hnil, List.length_nil] at hrem
        show 0 < countAdmins (db.filter (fun u => !(u.uid == id)))
        omega
  · intro userIds hpos
    unfold bulkAction
    by_cases h0 : userIds = []
    · simp only [h0, List.nil_beq_iff, if_pos rfl]
      simpa [h0] using hpos
    · have h0' : (userIds == []) = false := beq_eq_false_iff_ne.2 h0
      simp only [h0', hact, hdea, hdel, Bool.false_eq_true, if_false, if_true]
      have hrem : countAdmins (db.filter (fun u => !userIds.contains u.uid))
          = countAdmins db
            - (db.filter (fun u => u.role == Role.admin && userIds.contains u.uid)).length :=
        countAdmins_filter_not db (fun u => userIds.contains u.uid)
      have hcomm :
          (db.filter (fun u => userIds.contains u.uid && u.role == Role.admin)).length
            = (db.filter (fun u => u.role == Role.admin && userIds.contains u.uid)).length := by
        rw [List.filter_congr (fun x _ => Bool.and_comm _ _)]
      by_cases hsel :
          (db.filter (fun u => userIds.contains u.uid && u.role == Role.admin)).length > 0
      · by_cases href : countAdmins db ≤
            (db.filter (fun u => userIds.contains u.uid && u.role == Role.admin)).length
        · rw [if_pos hsel, if_pos href]
          exact hpos
        · rw [if_pos hsel, if_neg href]
          show 0 < countAdmins (db.filter (fun u => !userIds.contains u.uid))
          omega
      · rw [if_neg hsel]
        show 0 < countAdmins (db.filter (fun u => !userIds.contains u.uid))
        omega

/-- The two concrete admin accounts used by the C5 witness. -/
def adminCarol : User :=
  { uid := 3
    username := "carol"
    email := "carol@example.com"
    password := "adminpw"
    role := Role.admin
    package := none
    packageEndDate := none
    isActive := true
    registeredDeviceId := none
    lastLogin := none }

/-- Second concrete admin account for the C5 witness. -/
def adminDave : User :=
  { uid := 4
    username := "dave"
    email := "dave@example.com"
    password := "adminpw2"
    role := Role.admin
    package := none
    packageEndDate := none
    isActive := true
    registeredDeviceId := none
    lastLogin := none }

/-- C5 witness: with the single admin `adminCarol` in the directory, a
delete of that account refuses and changes nothing, and a bulk delete
selecting every admin refuses and changes nothing. -/
theorem C5_admin_invariant_witness :
    deleteUser [adminCarol] 3 = (.lastAdmin, [adminCarol]) ∧
    bulkAction [adminCarol, adminDave] "delete" [3, 4]
      = (.cannotDeleteAllAdmins, [adminCarol, adminDave]) :=
  ⟨(C5_admin_invariant [adminCarol] (by decide)).1 3 adminCarol rfl rfl rfl,
    (C5_admin_invariant [adminCarol, adminDave] (by decide)).2.1 [3, 4]
      (by decide) (by decide) (by decide)⟩

/-! Claim C10: desktop tokens live inside the issuing browser session. -/

theorem verifyTokenStore_fst (pkgs : List Package) (db : List User)
    (store : List (String × Session)) (sid2 : Option String) (tok : String)
    (now : Int) :
    (verifyTokenStore pkgs db store sid2 tok now).1
      = (verifyToken pkgs db (getSession store sid2) tok now).1 := by
  cases sid2 <;> rfl

theorem apiLogoutStore_fst (db : List User)
    (store : List (String × Session)) (sid2 : Option String) (tok : String) :
    (apiLogoutStore db store sid2 tok).1
      = (apiLogout db (getSession store sid2) tok).1 := by
  cases sid2 <;> rfl

/-- C10: a token issued by a successful desktop login is recorded in the
token table of the session that performed the login, and nowhere else:
a verify-token or logout request carried by any other session id — or by no
session cookie at all — does not find the token and answers 401
(invalid-token resp. unknown-token), and once the issuing session is
destroyed a verify under any session id answers 401. -/
theorem C10_tokens_session_scoped (pkgs : List Package) (db : List User)
    (store : List (String × Session)) (sid : String)
    (un pw dev tok : String) (now : Int) (u : User)
    (db1 : List User) (store1 : List (String × Session))
    (hU : un ≠ "") (hP : pw ≠ "") (hD : dev ≠ "") (hT : tok ≠ "")
    (hFound : findByUsername db un = some u)
    (hA : u.isActive = true)
    (hEnt : u.isAdmin = true ∨ u.isPackageValid now = true)
    (hPw : u.comparePassword pw = true)
    (hDev : u.registeredDeviceId = none ∨ u.registeredDeviceId = some dev)
    (hFresh : ∀ p ∈ store, List.lookup tok p.2.desktopTokens = none)
    (hOut : (apiLoginStore pkgs db store sid un pw dev tok now).2
      = (db1, store1)) :
    List.lookup tok (getSession store1 (some sid)).desktopTokens
      = some ⟨u.uid, dev, now⟩ ∧
    (∀ sid2, sid2 ≠ some sid →
      (verifyTokenStore pkgs db1 store1 sid2 tok now).1 = .invalidToken) ∧
    (∀ sid2, sid2 ≠ some sid →
      (apiLogoutStore db1 store1 sid2 tok).1 = .unknownToken) ∧
    (∀ sid2,
      (verifyTokenStore pkgs db1 (destroySession store1 sid) sid2 tok now).1
        = .invalidToken) := by
  have hsessEq :
      (apiLogin pkgs db (getSession store (some sid)) un pw dev tok now).2.2
        = { getSession store (some sid) with
            desktopTokens :=
              insertKey (getSession store (some sid)).desktopTokens tok
                ⟨u.uid, dev, now⟩ } := by
    rcases hDev with hN | hS
    · rw [apiLogin_eq_of_unbound pkgs db _ un pw dev tok now u
        hU hP hD hFound hA hEnt hPw hN]
      rfl
    · rw [apiLogin_eq_of_bound pkgs db _ un pw dev tok now u
        hU hP hD hFound hA hEnt hPw hS]
      rfl
  have hstore1 : store1 = insertKey store sid
      { getSession store (some sid) with
        desktopTokens :=
          insertKey (getSession store (some sid)).desktopTokens tok
            ⟨u.uid, dev, now⟩ } := by
    have h2 : putSession store sid
        (apiLogin pkgs db (getSession store (some sid)) un pw dev tok now).2.2
          = store1 :=
      congrArg Prod.snd hOut
    rw [← h2, hsessEq]
    rfl
  have hnotok : ∀ sid2, sid2 ≠ some sid →
      List.lookup tok (getSession store1 sid2).desktopTokens = none := by
    intro sid2 hne
    cases sid2 with
    | none => rfl
    | some s =>
      have hs : s ≠ sid := fun h => hne (by rw [h])
      show List.lookup tok
        ((List.lookup s store1).getD Session.empty).desktopTokens = none
      rw [hstore1, lookup_insertKey_ne store s sid _ hs]
      cases hl : List.lookup s store with
      | none => rfl
      | some sess => exact hFresh (s, sess) (mem_of_lookup_eq_some hl)
  have hnotok2 : ∀ sid2,
      List.lookup tok
        (getSession (destroySession store1 sid) sid2).desktopTokens = none := by
    intro sid2
    cases sid2 with
    | none => rfl
    | some s =>
      show List.lookup tok
        ((List.lookup s (removeKey store1 sid)).getD Session.empty).desktopTokens
          = none
      by_cases hs : s = sid
      · subst hs
        rw [lookup_removeKey_self]
        rfl
      · rw [lookup_removeKey_ne store1 s sid hs, hstore1,
          lookup_insertKey_ne store s sid _ hs]
        cases hl : List.lookup s store with
        | none => rfl
        | some sess => exact hFresh (s, sess) (mem_of_lookup_eq_some hl)
  have hverify : ∀ sess' : Session,
      List.lookup tok sess'.desktopTokens = none →
      (verifyToken pkgs db1 sess' tok now).1 = .invalidToken := by
    intro sess' h
    simp [verifyToken, beq_eq_false_iff_ne.2 hT, h]
  have hlogout : ∀ sess' : Session,
      List.lookup tok sess'.desktopTokens = none →
      (apiLogout db1 sess' tok).1 = .unknownToken := by
    intro sess' h
    simp [apiLogout, beq_eq_false_iff_ne.2 hT, h]
  refine ⟨?_, ?_, ?_, ?_⟩
  · show List.lookup tok
      ((List.lookup sid store1).getD Session.empty).desktopTokens = _
    rw [hstore1, lookup_insertKey_self]
    exact lookup_insertKey_self _ _ _
  · intro sid2 hne
    rw [verifyTokenStore_fst]
    exact hverify _ (hnotok sid2 hne)
  · intro sid2 hne
    rw [apiLogoutStore_fst]
    exact hlogout _ (hnotok sid2 hne)
  · intro sid2
    rw [verifyTokenStore_fst]
    exact hverify _ (hnotok2 sid2)

/-- The session written back to the store by the concrete login of the C10
witness. -/
def c10Sess : Session := ⟨[("tok", ⟨1, "dev-1", 0⟩)], []⟩

/-- C10 witness: a concrete login on session "s1" over an empty store; the
token is only in session "s1", any other (or absent) session id gets 401
from verify and logout, and after destroying "s1" every verify gets 401. -/
theorem C10_tokens_session_scoped_witness :
    List.lookup "tok" (getSession [("s1", c10Sess)] (some "s1")).desktopTokens
      = some ⟨1, "dev-1", 0⟩ ∧
    (∀ sid2, sid2 ≠ some "s1" →
      (verifyTokenStore [premiumPkg] [aliceBound] [("s1", c10Sess)] sid2
        "tok" 0).1 = .invalidToken) ∧
    (∀ sid2, sid2 ≠ some "s1" →
      (apiLogoutStore [aliceBound] [("s1", c10Sess)] sid2 "tok").1
        = .unknownToken) ∧
    (∀ sid2,
      (verifyTokenStore [premiumPkg] [aliceBound]
        (destroySession [("s1", c10Sess)] "s1") sid2 "tok" 0).1
          = .invalidToken) :=
  C10_tokens_session_scoped [premiumPkg] [aliceBase] [] "s1" "alice"
    "correctpw" "dev-1" "tok" 0 aliceBase [aliceBound] [("s1", c10Sess)]
    (by decide) (by decide) (by decide) (by decide) rfl rfl
    (Or.inr (by decide)) (by decide) (Or.inl rfl)
    (by intro p hp; cases hp) (by decide)

end SevenXN
